import Mathlib

/-
Verification of the entropy server (PyRand/entropy_server.py) of the
Silent Secure Messenger repository.

The Python module is shallowly embedded below.  Bytes are modelled as
natural numbers (Python byte values are 0..255; the claims under
verification depend on positions, lengths and XOR arithmetic, never on
byte range).  Every nondeterministic input of the real code (os.urandom,
wall-clock staleness, collected video data) is passed in explicitly as an
argument, so the embedded functions are pure; os.urandom is modelled by a
RandomSource, a byte producer that returns exactly as many bytes as asked
for, which is the documented contract of os.urandom.
-/

namespace EntropyServer

/-- A Python byte value (0..255 in the running program). -/
abbrev Byte := ℕ

/-- Model of os.urandom: a byte producer returning exactly n bytes when
asked for n.  The length law is the documented contract of os.urandom. -/
def RandomSource := {f : ℕ → List Byte // ∀ n, (f n).length = n}

/-- The all-zero random source, used to instantiate witnesses. -/
def zeroSource : RandomSource :=
  ⟨fun n => List.replicate n 0, fun n => List.length_replicate n 0⟩

/-- Lower-case hex digit for a value 0..15, as produced by bytes.hex(). -/
def hexDigitChar (n : ℕ) : Char :=
  if n < 10 then Char.ofNat (48 + n) else Char.ofNat (97 + (n - 10))

/-- Model of bytes.hex(): two lower-case hex characters per byte. -/
def toHex (bs : List Byte) : List Char :=
  (bs.map (fun b => [hexDigitChar (b / 16), hexDigitChar (b % 16)])).flatten

/-- Model of str.encode() for the ASCII strings this server hashes
(hex characters and API-key characters): one byte per character. -/
def encodeAscii (s : List Char) : List Byte :=
  s.map (fun c => c.toNat % 256)

/-- Model of hashlib.sha256(data).digest(): a deterministic 32-byte
digest.  Every claim verified in this file depends only on the digest
being 32 bytes long and a deterministic function of its input, never on
the SHA-256 compression function itself, which is therefore modelled by
a simple mixing fold. -/
def sha256_model (data : List Byte) : List Byte :=
  let s := data.foldl (fun a b => (a * 131 + b + 7) % 65536) 17
  (List.range 32).map (fun i => (s + 131 * i + data.length) % 256)

/-- Model of hashlib.sha512(data).digest(): a deterministic 64-byte
digest, modelled the same way as sha256_model. -/
def sha512_model (data : List Byte) : List Byte :=
  let s := data.foldl (fun a b => (a * 257 + b + 11) % 65536) 23
  (List.range 64).map (fun i => (s + 257 * i + data.length) % 256)

/-- compute_hash (entropy_server.py lines 114-121): dispatches on the
algorithm name, defaulting to SHA-256 for unknown names. -/
def compute_hash (data : List Byte) (algorithm : String) : List Byte :=
  if algorithm = "sha256" then sha256_model data
  else if algorithm = "sha512" then sha512_model data
  else sha256_model data

/-- Python slice b[:i] for an Int index i: for i >= 0 the first i
elements (clamped); for i < 0 everything but the last |i| elements
(clamped at the empty list). -/
def pySliceTo (l : List Byte) (i : ℤ) : List Byte :=
  if 0 ≤ i then l.take i.toNat else l.take (l.length - i.natAbs)

/-- Python slice b[i:] for an Int index i: for i >= 0 drop the first i
elements (clamped); for i < 0 the last |i| elements (clamped). -/
def pySliceFrom (l : List Byte) (i : ℤ) : List Byte :=
  if 0 ≤ i then l.drop i.toNat else l.drop (l.length - i.natAbs)

/-- Python bytes repetition b * n (empty for n = 0, as in Python for a
non-positive count). -/
def pyRepeat (l : List Byte) (n : ℕ) : List Byte :=
  (List.replicate n l).flatten

/-- The clientEntropy field of a seed request as the truthiness
and parsing tests of the code see it:
* absent: missing, None, or an empty (falsy) string — both the standard
  path (line 343, the extra_entropy truthiness plus isinstance test) and
  the fast path (line 665, the client_entropy truthiness test) skip
  mixing;
* invalidHex: a truthy value that is not a str or that bytes.fromhex
  rejects — both paths catch the error and keep the unmixed bytes;
* valid bs: a truthy hex string decoding to the byte list bs (bs can be
  empty, e.g. for the string " ", which bytes.fromhex accepts). -/
inductive ClientEntropyField
  | absent
  | invalidHex
  | valid (bs : List Byte)

/-- Client-entropy mixing of the standard path (entropy_server.py lines
343-350), applied to the bytes taken from the pool.  Mirrors the source:
if len(client) < size the client bytes are repeated size // len + 1
times before being truncated to size and XORed; when the repetition
divides by a zero length (valid but empty client bytes and size > 0),
the ZeroDivisionError is caught at line 351 and seed_bytes stays
unchanged. -/
def mixClient (seed_bytes : List Byte) (size : ℤ) (client : List Byte) : List Byte :=
  if (client.length : ℤ) < size ∧ client = [] then seed_bytes
  else
    let client2 :=
      if (client.length : ℤ) < size then
        pyRepeat client ((size.fdiv (client.length : ℤ)) + 1).toNat
      else client
    List.zipWith (fun a b => a ^^^ b) seed_bytes (pySliceTo client2 size)

/-- The pool-refresh trigger condition of generate_entropy_seed (line
332): pool below 2*size, or the pool stale (time since the last refresh
above REFRESH_INTERVAL, passed in as the boolean stale). -/
def refresh_condition (pool : List Byte) (size : ℤ) (stale : Bool) : Bool :=
  decide ((pool.length : ℤ) < size * 2) || stale

/-- The pool as seen after line 333: routed through the refresh (whose
effect on the pool is the parameter refreshFn) exactly when
refresh_condition holds. -/
def refresh_check (pool : List Byte) (size : ℤ) (stale : Bool)
    (refreshFn : List Byte → List Byte) : List Byte :=
  if refresh_condition pool size stale then refreshFn pool else pool

/-- Result of generate_entropy_seed, instrumented for observation:
seed_hex is the returned hex string; pool the entropy_pool after the
call; refreshInvoked records whether line 333 ran; usedFallback whether
the depleted-pool branch (lines 357-362) ran; taken the bytes removed
from the pool at line 338 ([] on the fallback branch). -/
structure GenResult where
  seed_hex : List Char
  pool : List Byte
  refreshInvoked : Bool
  usedFallback : Bool
  taken : List Byte

/-- generate_entropy_seed (entropy_server.py lines 314-362).  size is an
Int because the caller clamps only from above (min(int(..), 128)); all
slicing follows Python slice semantics.  pad32 models os.urandom(32) of
line 355; fbGen models the os.urandom(size) of the fallback branch
(line 360); refreshFn the effect of refresh_entropy_pool on the pool;
stale the REFRESH_INTERVAL staleness test of line 332. -/
def generate_entropy_seed (size : ℤ) (extra : ClientEntropyField)
    (pool : List Byte) (stale : Bool) (refreshFn : List Byte → List Byte)
    (pad32 : List Byte) (fbGen : RandomSource) : GenResult :=
  let pool1 := refresh_check pool size stale refreshFn
  if (size : ℤ) ≤ (pool1.length : ℤ) then
    let seed_bytes := pySliceTo pool1 size
    let pool2 := pySliceFrom pool1 size
    let seed_bytes2 :=
      match extra with
      | ClientEntropyField.valid client => mixClient seed_bytes size client
      | _ => seed_bytes
    let seed := pySliceTo (compute_hash (seed_bytes2 ++ pad32) "sha256") size
    ⟨toHex seed, pool2, refresh_condition pool size stale, false, seed_bytes⟩
  else
    let fallback := fbGen.1 size.toNat
    let seed := pySliceTo (compute_hash fallback "sha256") size
    ⟨toHex seed, pool1, refresh_condition pool size stale, true, []⟩

/-- Fast-path client-entropy mixing (entropy_server.py lines 668-671):
mixed_seed starts as a zero-filled bytearray of seed_size, and only the
first min(len(client), seed_size) positions are overwritten with
emergency_seed[i] XOR client[i % len(client)]; the remaining positions
keep the zero fill of the bytearray. -/
def fast_path_mix (emergency_seed : List Byte) (seed_size : ℕ)
    (client : List Byte) : List Byte :=
  (List.range seed_size).map (fun i =>
    if i < min client.length seed_size then
      (emergency_seed.getD i 0) ^^^ (client.getD (i % client.length) 0)
    else 0)

/-- is_critical_path (entropy_server.py line 652): purposes served by
the fast path while a refresh is in progress. -/
def is_critical_path (purpose : String) : Bool :=
  (["login", "startup", "initialization", "immediate"] : List String).contains purpose

/-- The size field of the request body as the parsing of the code sees it:
absent (data.get defaults to 32), malformed (int() raises ValueError or
TypeError), or an integer value. -/
inductive SizeField
  | absent
  | malformed
  | given (n : ℤ)

/-- seed_size parsing (entropy_server.py line 642):
min(int(data.get(size, 32)), 128) — clamped from above at 128 only;
a malformed value makes int() raise before seed_size is bound. -/
def parse_seed_size : SizeField → Except String ℤ
  | SizeField.absent => Except.ok (min 32 128)
  | SizeField.malformed => Except.error "invalid literal for int"
  | SizeField.given n => Except.ok (min n 128)

/-- A seed request body as consumed by get_seed. -/
structure SeedReq where
  sizeField : SizeField
  clientEntropy : ClientEntropyField
  purpose : String

/-- A JSON value occurring in the responses of get_seed. -/
inductive JVal
  | s (v : List Char)
  | b (v : Bool)

/-- A JSON object response, as the ordered key/value list the source
builds literally. -/
abbrev Response := List (String × JVal)

/-- What the HTTP layer sees: a JSON response, or an HTTP error status
when an exception escapes the handler (Flask answers 500). -/
inductive EndpointOutcome
  | ok (resp : Response)
  | httpError (code : ℕ)

/-- The response body of an outcome ([] for an HTTP error). -/
def respOf : EndpointOutcome → Response
  | EndpointOutcome.ok r => r
  | EndpointOutcome.httpError _ => []

/-- The hex seed carried in a response ([] when absent). -/
def seedHexOf (o : EndpointOutcome) : List Char :=
  match (respOf o).lookup "seed" with
  | some (JVal.s v) => v
  | _ => []

/-- The except handler of get_seed (entropy_server.py lines 712-725).
It is entered with whatever value the local seed_size had when the
exception was raised.  When the exception was raised by the int() call
at line 642, seed_size was never assigned, so the
os.urandom(seed_size) call of the handler at line 716 raises UnboundLocalError and Flask
returns a hard 500.  When seed_size is bound but negative, os.urandom
raises ValueError again, with the same effect.  Otherwise the handler
builds the fallback response of lines 717-724. -/
def get_seed_error_handler (bound_seed_size : Option ℤ) (errMsg : List Char)
    (exFb : RandomSource) (ts rid : List Char) : EndpointOutcome :=
  match bound_seed_size with
  | none => EndpointOutcome.httpError 500
  | some n =>
      if n < 0 then EndpointOutcome.httpError 500
      else
        EndpointOutcome.ok
          [("seed", JVal.s (toHex (exFb.1 n.toNat))),
           ("timestamp", JVal.s ts),
           ("signature", JVal.s ("fallback".toList)),
           ("requestId", JVal.s rid),
           ("fallback", JVal.b true),
           ("error", JVal.s errMsg)]

/-- The mutable server state read by get_seed: the entropy pool, the
staleness of its last refresh, and the refresh_in_progress flag. -/
structure ServerState where
  pool : List Byte
  stale : Bool
  refreshing : Bool

/-- The seed bytes produced by the fast path of get_seed
(entropy_server.py lines 658-677) for a non-negative seed_size:
emergency bytes from the secure random source, optionally mixed with the
client entropy by fast_path_mix, then hashed and truncated to
seed_size. -/
def fast_path_seed (clientEntropy : ClientEntropyField) (seed_size : ℕ)
    (emer : RandomSource) : List Byte :=
  let emergency_seed := emer.1 seed_size
  let emergency_seed2 :=
    match clientEntropy with
    | ClientEntropyField.valid client =>
        fast_path_mix emergency_seed seed_size client
    | _ => emergency_seed
  pySliceTo (compute_hash emergency_seed2 "sha256") (seed_size : ℤ)

/-- The response body of the fast path of get_seed (entropy_server.py
lines 680-686), including the prefetchDuringRefresh marker. -/
def fast_path_response (clientEntropy : ClientEntropyField) (seed_size : ℕ)
    (emer : RandomSource) (ts rid : List Char) : Response :=
  [("seed", JVal.s (toHex (fast_path_seed clientEntropy seed_size emer))),
   ("timestamp", JVal.s ts),
   ("signature", JVal.s (toHex (sha256_model (fast_path_seed clientEntropy seed_size emer)))),
   ("requestId", JVal.s rid),
   ("prefetchDuringRefresh", JVal.b true)]

/-- get_seed (entropy_server.py lines 632-725), returning the outcome
and the entropy pool after the request.  ts and rid model the timestamp
and the generated request id; apiKeyValid models the api_key-in-values
test of line 698 and apiKey the key characters; emer models the
os.urandom(seed_size) of line 662, pad32 and fbGen the two urandom calls
inside generate_entropy_seed, exFb the one of the except handler, and
refreshFn the effect of refresh_entropy_pool on the pool.  The only
statement of the try body that raises in this model is the int() call of
line 642 (every other failure in the body is caught locally by the
source); on that raise the except handler runs with seed_size unbound.
A negative parsed size on the fast path makes os.urandom raise at line
662, and the handler (with seed_size bound and negative) raises again at
line 716. -/
def get_seed (req : SeedReq) (st : ServerState) (apiKey : List Char)
    (apiKeyValid : Bool) (ts rid : List Char) (emer : RandomSource)
    (pad32 : List Byte) (fbGen : RandomSource) (exFb : RandomSource)
    (refreshFn : List Byte → List Byte) : EndpointOutcome × List Byte :=
  match parse_seed_size req.sizeField with
  | Except.error e =>
      (get_seed_error_handler none e.toList exFb ts rid, st.pool)
  | Except.ok seed_size =>
      if is_critical_path req.purpose && st.refreshing then
        if seed_size < 0 then
          (get_seed_error_handler (some seed_size) "negative argument".toList exFb ts rid, st.pool)
        else
          (EndpointOutcome.ok
            (fast_path_response req.clientEntropy seed_size.toNat emer ts rid), st.pool)
      else
        let r := generate_entropy_seed seed_size req.clientEntropy st.pool
                   st.stale refreshFn pad32 fbGen
        let signature_base := r.seed_hex ++ (if apiKeyValid then apiKey else [])
        let signature := toHex (sha256_model (encodeAscii signature_base))
        (EndpointOutcome.ok
          [("seed", JVal.s r.seed_hex),
           ("timestamp", JVal.s ts),
           ("signature", JVal.s signature),
           ("requestId", JVal.s rid)], r.pool)

/-- An acquire or release of the (single, non-reentrant) entropy_lock. -/
inductive LockOp
  | acq
  | rel

/-- The sequence of entropy_lock operations performed by one call to
refresh_entropy_pool (entropy_server.py lines 364-481): the initial
with-block at lines 381-384, one with-block per processed video at
lines 440-443, and the final with-block at lines 460-473 (on the error
branch, the with-block at lines 477-481 takes the place of the final block:
the shape acquire-then-release is the same). -/
def refresh_entropy_pool_locks (videos : ℕ) : List LockOp :=
  [LockOp.acq, LockOp.rel]
    ++ (List.replicate videos [LockOp.acq, LockOp.rel]).flatten
    ++ [LockOp.acq, LockOp.rel]

/-- The sequence of entropy_lock operations performed by one call to
generate_entropy_seed (entropy_server.py lines 328-362): the lock is
acquired at line 328 and held for the whole body; when the refresh
condition of line 332 holds, refresh_entropy_pool is called at line 333
inside that held region, contributing its own lock operations. -/
def generate_entropy_seed_locks (poolLen : ℕ) (size : ℤ) (stale : Bool)
    (videos : ℕ) : List LockOp :=
  [LockOp.acq]
    ++ (if decide ((poolLen : ℤ) < size * 2) || stale
        then refresh_entropy_pool_locks videos else [])
    ++ [LockOp.rel]

/-- Simulates a single thread running a sequence of operations on one
non-reentrant lock, starting with d acquisitions already held by that
thread: an acquire while the lock is already held blocks the thread
forever (threading.Lock is not reentrant), which this function reports
as true. -/
def deadlocksFrom : List LockOp → ℕ → Bool
  | [], _ => false
  | LockOp.acq :: rest, d => d != 0 || deadlocksFrom rest (d + 1)
  | LockOp.rel :: rest, d => deadlocksFrom rest (d - 1)

/-- The configured entropy pool capacity (entropy_server.py line 43):
1024 * 1024 bytes. -/
def ENTROPY_POOL_SIZE : ℕ := 1024 * 1024

/-- The while-loop of refresh_entropy_pool (entropy_server.py lines
464-468): while the pool is below ENTROPY_POOL_SIZE, hash the previous
digest together with fresh randomness and a random salt (together the
parameter salts i for iteration i) and append the 64-byte digest. -/
def fold_to_capacity (pool prev : List Byte) (salts : ℕ → List Byte)
    (i : ℕ) : List Byte :=
  if h : pool.length < ENTROPY_POOL_SIZE then
    let final_entropy := sha512_model (prev ++ salts i)
    fold_to_capacity (pool ++ final_entropy) final_entropy salts (i + 1)
  else pool
termination_by ENTROPY_POOL_SIZE - pool.length
decreasing_by
  simp only [List.length_append, sha512_model, List.length_map, List.length_range]
  omega

/-- The pool transformation of a refresh_entropy_pool call that runs to
the end of its try block (entropy_server.py lines 372-473): append the
512-bit hash of the system entropy plus 32 fresh random bytes (lines
381-384), then one 512-bit hash per collected video blob (lines
440-443), then the 512-bit hash of all collected entropy — the system
entropy, the video blobs (or, with no videos configured, 100KB of extra
randomness, lines 448-452) and a timestamp — and finally fold up to
ENTROPY_POOL_SIZE (lines 459-468). -/
def refresh_entropy_pool_run (pool sysE r32 : List Byte)
    (videoData : List (List Byte)) (extraRand tsB : List Byte)
    (salts : ℕ → List Byte) : List Byte :=
  let pool1 := pool ++ sha512_model (sysE ++ r32)
  let pool2 := videoData.foldl (fun p vd => p ++ sha512_model vd) pool1
  let all := sysE ++ (if videoData = [] then extraRand else videoData.flatten) ++ tsB
  let pool3 := pool2 ++ sha512_model all
  fold_to_capacity pool3 (sha512_model all) salts 0

/-- The shared state the refresh machinery mutates: the pool and the
refresh_in_progress flag. -/
structure SchedState where
  pool : List Byte
  inProgress : Bool

/-- How one refresh cycle run by the background scheduler ends
(entropy_server.py lines 520-582).  The argument pre of the three
failure outcomes is the bytes the cycle had already appended to the pool
before it failed — every pool mutation inside refresh_entropy_pool is an
extend, so the pool at the moment of failure is the old pool plus some
appended block. -/
inductive RefreshOutcome
  /-- the try block of refresh_entropy_pool ran to completion. -/
  | ok (sysE r32 : List Byte) (videoData : List (List Byte))
      (extraRand tsB : List Byte) (salts : ℕ → List Byte)
  /-- an exception inside refresh_entropy_pool, recovered by its own
  except branch (lines 474-481): 10KB of emergency randomness. -/
  | innerError (pre : List Byte)
  /-- an exception escaping refresh_entropy_pool, recovered by
  refresh_with_cleanup (lines 535-544): 20KB of emergency randomness. -/
  | threadError (pre : List Byte)
  /-- the refresh thread still alive after the 75s join (lines
  565-582): 64KB of emergency randomness. -/
  | timeout (pre : List Byte)

/-- One complete refresh cycle as run by the background scheduler
(refresh_with_cleanup plus the join-timeout branch of
background_entropy_refresh, entropy_server.py lines 520-582), starting
from a state whose in-progress flag was set by the scheduler.  In every
outcome the pool only grows and the flag ends cleared: the finally
branch at lines 545-547 clears it on success and on a thread error, and
line 582 clears it on the join timeout. -/
def refresh_with_cleanup_step (st : SchedState) (o : RefreshOutcome)
    (rnd : RandomSource) : SchedState :=
  match o with
  | RefreshOutcome.ok sysE r32 vd extraRand tsB salts =>
      ⟨refresh_entropy_pool_run st.pool sysE r32 vd extraRand tsB salts, false⟩
  | RefreshOutcome.innerError pre => ⟨st.pool ++ pre ++ rnd.1 10240, false⟩
  | RefreshOutcome.threadError pre => ⟨st.pool ++ pre ++ rnd.1 20480, false⟩
  | RefreshOutcome.timeout pre => ⟨st.pool ++ pre ++ rnd.1 65536, false⟩

/-- The output-condensing step of process_video (entropy_server.py lines
236-252), applied to the collected entropy bytes: above the 10KB
threshold the buffer is replaced by the concatenation of the SHA-256
digests of its consecutive 10KB chunks (the last chunk possibly short —
the source computes end_idx = min(start+chunk, len), which the clamping
take mirrors); at or below the threshold the output is the digest of the
whole buffer followed by its first 1024 raw bytes. -/
def process_video_condense (entropy_bytes : List Byte) : List Byte :=
  if entropy_bytes.length > 1024 * 10 then
    let chunk_size := 1024 * 10
    let num_chunks := entropy_bytes.length / chunk_size
      + (if entropy_bytes.length % chunk_size ≠ 0 then 1 else 0)
    ((List.range num_chunks).map
      (fun i => sha256_model ((entropy_bytes.drop (i * chunk_size)).take chunk_size))).flatten
  else
    sha256_model entropy_bytes ++ entropy_bytes.take 1024

/-! Shared helper lemmas. -/

theorem sha256_model_length (data : List Byte) : (sha256_model data).length = 32 := by
  simp [sha256_model]

theorem sha512_model_length (data : List Byte) : (sha512_model data).length = 64 := by
  simp [sha512_model]

theorem toHex_length (bs : List Byte) : (toHex bs).length = 2 * bs.length := by
  induction bs with
  | nil => simp [toHex]
  | cons b bs ih =>
      simp only [toHex, List.map_cons, List.flatten_cons, List.length_append,
        List.length_cons, List.length_nil] at *
      omega

theorem pySliceTo_ofNat (l : List Byte) (n : ℕ) : pySliceTo l (n : ℤ) = l.take n := by
  simp [pySliceTo]

theorem pySliceFrom_ofNat (l : List Byte) (n : ℕ) : pySliceFrom l (n : ℤ) = l.drop n := by
  simp [pySliceFrom]

theorem pySliceTo_neg (l : List Byte) (k : ℕ) (hk : 0 < k) :
    pySliceTo l (-(k : ℤ)) = l.take (l.length - k) := by
  simp only [pySliceTo]
  rw [if_neg (by omega)]
  congr 1
  omega

theorem pySliceFrom_neg (l : List Byte) (k : ℕ) (hk : 0 < k) :
    pySliceFrom l (-(k : ℤ)) = l.drop (l.length - k) := by
  simp only [pySliceFrom]
  rw [if_neg (by omega)]
  congr 1
  omega

theorem fold_to_capacity_length (pool prev : List Byte) (salts : ℕ → List Byte)
    (i : ℕ) : pool.length ≤ (fold_to_capacity pool prev salts i).length := by
  rw [fold_to_capacity]
  split
  · show pool.length ≤ (fold_to_capacity (pool ++ sha512_model (prev ++ salts i))
      (sha512_model (prev ++ salts i)) salts (i + 1)).length
    have h2 := fold_to_capacity_length
      (pool ++ sha512_model (prev ++ salts i)) (sha512_model (prev ++ salts i))
      salts (i + 1)
    simp only [List.length_append] at h2
    omega
  · exact le_refl _
termination_by ENTROPY_POOL_SIZE - pool.length
decreasing_by
  simp only [List.length_append, sha512_model, List.length_map, List.length_range]
  omega

theorem foldl_append_sha512_length (vd : List (List Byte)) (p : List Byte) :
    p.length ≤ (vd.foldl (fun a b => a ++ sha512_model b) p).length := by
  induction vd generalizing p with
  | nil => simp
  | cons v vs ih =>
      simp only [List.foldl_cons]
      have h1 := ih (p ++ sha512_model v)
      simp only [List.length_append] at h1
      omega

theorem flatten_map_sha256_length (l : List ℕ) (g : ℕ → List Byte) :
    ((l.map (fun i => sha256_model (g i))).flatten).length = 32 * l.length := by
  induction l with
  | nil => simp
  | cons x xs ih =>
      simp only [List.map_cons, List.flatten_cons, List.length_append,
        sha256_model_length, List.length_cons, ih]
      ring

theorem pyRepeat_getD (k : ℕ) (l : List Byte) (i : ℕ) (_hl : 0 < l.length)
    (hi : i < k * l.length) :
    (pyRepeat l k).getD i 0 = l.getD (i % l.length) 0 := by
  induction k generalizing i with
  | zero => omega
  | succ k ih =>
      simp only [pyRepeat, List.replicate_succ, List.flatten_cons]
      by_cases h : i < l.length
      · rw [List.getD_append _ _ 0 i h, Nat.mod_eq_of_lt h]
      · push_neg at h
        rw [List.getD_append_right _ _ 0 i h]
        have hmul : (k + 1) * l.length = k * l.length + l.length := by ring
        have h2 := ih (i - l.length) (by omega)
        simp only [pyRepeat] at h2
        rw [h2, Nat.mod_eq_sub_mod h]

theorem zipWith_xor_getD (a b : List Byte) (i : ℕ) (ha : i < a.length)
    (hb : i < b.length) :
    (List.zipWith (fun x y => x ^^^ y) a b).getD i 0 = (a.getD i 0) ^^^ (b.getD i 0) := by
  simp [List.getD, List.getElem?_zipWith, List.getElem?_eq_getElem, ha, hb]

theorem take_getD (l : List Byte) (n i : ℕ) (h : i < n) :
    (l.take n).getD i 0 = l.getD i 0 := by
  simp [List.getD, List.getElem?_take_of_lt h]

theorem pyRepeat_length (l : List Byte) (k : ℕ) :
    (pyRepeat l k).length = k * l.length := by
  induction k with
  | zero => simp [pyRepeat]
  | succ k ih =>
      simp only [pyRepeat, List.replicate_succ, List.flatten_cons,
        List.length_append] at *
      rw [ih]
      ring

theorem flatten_length_const (ls : List (List Byte))
    (h : ∀ l ∈ ls, l.length = 32) : ls.flatten.length = 32 * ls.length := by
  induction ls with
  | nil => simp
  | cons x xs ih =>
      simp only [List.flatten_cons, List.length_append, List.length_cons]
      rw [h x (List.mem_cons_self x xs), ih (fun l hl => h l (List.mem_cons_of_mem x hl))]
      ring

theorem compute_hash_sha256 (d : List Byte) :
    compute_hash d "sha256" = sha256_model d := by
  simp [compute_hash]

theorem refresh_check_not_due (pool : List Byte) (size : ℤ)
    (rf : List Byte → List Byte) (h : size * 2 ≤ (pool.length : ℤ)) :
    refresh_check pool size false rf = pool := by
  simp only [refresh_check, refresh_condition]
  rw [if_neg (by simp only [Bool.or_false, decide_eq_true_eq]; omega)]

/-- C5: taking n bytes from a pool holding m bytes (the pool as it
stands after the line-332 refresh check): if n <= m exactly the first n
bytes are removed and kept as the seed material and m - n bytes remain;
if m < n the depleted-pool fallback branch is taken and the pool is not
mutated.  Holds for every pool content and every requested n. -/
theorem C5_pool_take (pool : List Byte) (n : ℕ) (stale : Bool)
    (rf : List Byte → List Byte) (extra : ClientEntropyField)
    (pad32 : List Byte) (fb : RandomSource) :
    (n ≤ (refresh_check pool (n : ℤ) stale rf).length →
       (generate_entropy_seed (n : ℤ) extra pool stale rf pad32 fb).taken
           = (refresh_check pool (n : ℤ) stale rf).take n
     ∧ (generate_entropy_seed (n : ℤ) extra pool stale rf pad32 fb).pool
           = (refresh_check pool (n : ℤ) stale rf).drop n
     ∧ (generate_entropy_seed (n : ℤ) extra pool stale rf pad32 fb).pool.length
           = (refresh_check pool (n : ℤ) stale rf).length - n
     ∧ (generate_entropy_seed (n : ℤ) extra pool stale rf pad32 fb).usedFallback = false)
  ∧ ((refresh_check pool (n : ℤ) stale rf).length < n →
       (generate_entropy_seed (n : ℤ) extra pool stale rf pad32 fb).pool
           = refresh_check pool (n : ℤ) stale rf
     ∧ (generate_entropy_seed (n : ℤ) extra pool stale rf pad32 fb).taken = []
     ∧ (generate_entropy_seed (n : ℤ) extra pool stale rf pad32 fb).usedFallback = true) := by
  constructor
  · intro h
    simp only [generate_entropy_seed]
    rw [if_pos (by exact_mod_cast h)]
    simp [pySliceTo_ofNat, pySliceFrom_ofNat]
  · intro h
    simp only [generate_entropy_seed]
    rw [if_neg (by omega)]
    simp

/-- Witness for C5 at concrete inputs: a pool of 5 bytes with n = 2
(sufficient), and a pool of 1 byte with n = 2 (insufficient). -/
theorem C5_pool_take_witness :
    (2 ≤ (refresh_check [1, 2, 3, 4, 5] ((2 : ℕ) : ℤ) false id).length
     ∧ (generate_entropy_seed ((2 : ℕ) : ℤ) ClientEntropyField.absent [1, 2, 3, 4, 5] false id
          (List.replicate 32 0) zeroSource).taken
         = (refresh_check [1, 2, 3, 4, 5] ((2 : ℕ) : ℤ) false id).take 2
     ∧ (generate_entropy_seed ((2 : ℕ) : ℤ) ClientEntropyField.absent [1, 2, 3, 4, 5] false id
          (List.replicate 32 0) zeroSource).pool
         = (refresh_check [1, 2, 3, 4, 5] ((2 : ℕ) : ℤ) false id).drop 2
     ∧ (generate_entropy_seed ((2 : ℕ) : ℤ) ClientEntropyField.absent [1, 2, 3, 4, 5] false id
          (List.replicate 32 0) zeroSource).pool.length
         = (refresh_check [1, 2, 3, 4, 5] ((2 : ℕ) : ℤ) false id).length - 2
     ∧ (generate_entropy_seed ((2 : ℕ) : ℤ) ClientEntropyField.absent [1, 2, 3, 4, 5] false id
          (List.replicate 32 0) zeroSource).usedFallback = false)
  ∧ ((refresh_check [9] ((2 : ℕ) : ℤ) false id).length < 2
     ∧ (generate_entropy_seed ((2 : ℕ) : ℤ) ClientEntropyField.absent [9] false id
          (List.replicate 32 0) zeroSource).pool
         = refresh_check [9] ((2 : ℕ) : ℤ) false id
     ∧ (generate_entropy_seed ((2 : ℕ) : ℤ) ClientEntropyField.absent [9] false id
          (List.replicate 32 0) zeroSource).taken = []
     ∧ (generate_entropy_seed ((2 : ℕ) : ℤ) ClientEntropyField.absent [9] false id
          (List.replicate 32 0) zeroSource).usedFallback = true) :=
  ⟨⟨by decide,
    (C5_pool_take [1, 2, 3, 4, 5] 2 false id ClientEntropyField.absent
      (List.replicate 32 0) zeroSource).1 (by decide)⟩,
   ⟨by decide,
    (C5_pool_take [9] 2 false id ClientEntropyField.absent
      (List.replicate 32 0) zeroSource).2 (by decide)⟩⟩

/-- C8 counterexample: with a pool of 1000 bytes and size 32 the pool is
not critically low (1000 is not below 2*32 = 64), yet a stale pool alone
makes extraction trigger the synchronous refresh of line 333 (the pool
is routed through the refresh), contradicting the claim that a merely
stale pool never triggers a synchronous refresh. -/
theorem C8_counterexample_stale_triggers_refresh :
    (generate_entropy_seed 32 ClientEntropyField.absent (List.replicate 100 0) true
       (fun p => 0 :: p) (List.replicate 32 0) zeroSource).refreshInvoked = true
  ∧ ¬ ((100 : ℤ) < 32 * 2)
  ∧ refresh_check (List.replicate 100 0) 32 true (fun p => 0 :: p)
      = 0 :: List.replicate 100 0 := by
  refine ⟨?_, by decide, ?_⟩
  · simp only [generate_entropy_seed, refresh_condition]
    split <;> simp
  · simp [refresh_check, refresh_condition]

/-- C8 amended: during extraction the synchronous refresh of line 333 is
triggered exactly when the pool holds fewer than 2*size bytes OR the
pool is stale; in particular a stale pool triggers it even when the pool
is not critically low. -/
theorem C8_sync_refresh_condition (pool : List Byte) (size : ℤ) (stale : Bool)
    (extra : ClientEntropyField) (rf : List Byte → List Byte)
    (pad32 : List Byte) (fb : RandomSource) :
    ((generate_entropy_seed size extra pool stale rf pad32 fb).refreshInvoked
        = (decide ((pool.length : ℤ) < size * 2) || stale))
  ∧ (∀ (pool2 : List Byte) (size2 : ℤ) (rf2 : List Byte → List Byte),
        refresh_check pool2 size2 true rf2 = rf2 pool2) := by
  constructor
  · simp only [generate_entropy_seed, refresh_condition]
    split <;> rfl
  · intro pool2 size2 rf2
    simp [refresh_check, refresh_condition]

/-- C10: the requested size is clamped only from above (at 128).  A
request with size 0 returns an empty seed and leaves the pool unchanged,
and a request with negative size -k against a pool of more than k bytes
removes all but the last k bytes of the pool and returns a seed of
32 - k bytes, i.e. max(0, 32-k) since the subtraction is truncated
(the staleness-driven refresh of line 332 is assumed not due, i.e. the
pool is fresh). -/
theorem C10_no_lower_clamp (pool pad32 : List Byte) (fb : RandomSource)
    (rf : List Byte → List Byte) (k : ℕ) :
    parse_seed_size (SizeField.given 0) = Except.ok 0
  ∧ parse_seed_size (SizeField.given (-(k : ℤ))) = Except.ok (-(k : ℤ))
  ∧ (generate_entropy_seed 0 ClientEntropyField.absent pool false rf pad32 fb).seed_hex = []
  ∧ (generate_entropy_seed 0 ClientEntropyField.absent pool false rf pad32 fb).pool = pool
  ∧ (0 < k → k < pool.length →
       (generate_entropy_seed (-(k : ℤ)) ClientEntropyField.absent pool false rf pad32 fb).pool
           = pool.drop (pool.length - k)
     ∧ (generate_entropy_seed (-(k : ℤ)) ClientEntropyField.absent pool false rf pad32 fb).pool.length
           = k
     ∧ (generate_entropy_seed (-(k : ℤ)) ClientEntropyField.absent pool false rf pad32 fb).seed_hex.length
           = 2 * (32 - k)) := by
  have hrc0 : refresh_check pool 0 false rf = pool :=
    refresh_check_not_due pool 0 rf (by omega)
  have hgen0 : generate_entropy_seed 0 ClientEntropyField.absent pool false rf pad32 fb
      = ⟨[], pool, false, false, []⟩ := by
    simp only [generate_entropy_seed, hrc0]
    rw [if_pos (by omega)]
    simp only [refresh_condition, pySliceTo, pySliceFrom]
    norm_num [toHex]
  have hrcneg : ∀ hk : 0 < k, refresh_check pool (-(k : ℤ)) false rf = pool := by
    intro hk
    exact refresh_check_not_due pool (-(k : ℤ)) rf (by omega)
  refine ⟨?_, ?_, ?_, ?_, ?_⟩
  · simp [parse_seed_size]
  · simp only [parse_seed_size, Except.ok.injEq]
    omega
  · rw [hgen0]
  · rw [hgen0]
  · intro hk hkm
    have hgenneg : generate_entropy_seed (-(k : ℤ)) ClientEntropyField.absent pool false rf pad32 fb
        = ⟨toHex ((sha256_model (pool.take (pool.length - k) ++ pad32)).take
                    ((sha256_model (pool.take (pool.length - k) ++ pad32)).length - k)),
           pool.drop (pool.length - k), refresh_condition pool (-(k : ℤ)) false, false,
           pool.take (pool.length - k)⟩ := by
      simp only [generate_entropy_seed, hrcneg hk]
      rw [if_pos (by omega)]
      simp only [pySliceTo_neg _ k hk, pySliceFrom_neg _ k hk, compute_hash_sha256]
    refine ⟨?_, ?_, ?_⟩
    · rw [hgenneg]
    · rw [hgenneg]
      simp only [List.length_drop]
      omega
    · rw [hgenneg]
      simp only [toHex_length, List.length_take, sha256_model_length]
      omega

/-- Witness for C10 at a concrete input: pool of 5 bytes, k = 2. -/
theorem C10_no_lower_clamp_witness :
    0 < 2 ∧ 2 < ([1, 2, 3, 4, 5] : List Byte).length
  ∧ ((generate_entropy_seed (-((2 : ℕ) : ℤ)) ClientEntropyField.absent [1, 2, 3, 4, 5] false id
        (List.replicate 32 0) zeroSource).pool
       = ([1, 2, 3, 4, 5] : List Byte).drop (([1, 2, 3, 4, 5] : List Byte).length - 2)
     ∧ (generate_entropy_seed (-((2 : ℕ) : ℤ)) ClientEntropyField.absent [1, 2, 3, 4, 5] false id
        (List.replicate 32 0) zeroSource).pool.length = 2
     ∧ (generate_entropy_seed (-((2 : ℕ) : ℤ)) ClientEntropyField.absent [1, 2, 3, 4, 5] false id
        (List.replicate 32 0) zeroSource).seed_hex.length = 2 * (32 - 2)) :=
  ⟨by decide, by decide,
   (C10_no_lower_clamp [1, 2, 3, 4, 5] (List.replicate 32 0) zeroSource id 2).2.2.2.2
     (by decide) (by decide)⟩

set_option maxRecDepth 4000 in
/-- C1: the claim asks for a seed of exactly size bytes (2*size hex
characters) for every size in [1,128], but for size = 64 — the default
of generate_entropy_seed itself — every path truncates the 32-byte
SHA-256 digest with [:size] and returns 32 bytes, i.e. 64 hex
characters instead of the required 128: the standard path (line 355),
the pool-depleted fallback path (line 361) and the fast path (line 677)
all evaluate to a 64-character hex seed, and 64 is not 2*64. -/
theorem C1_seed_truncated_to_32_bytes :
    (generate_entropy_seed 64 ClientEntropyField.absent (List.replicate 128 1) false id
       (List.replicate 32 0) zeroSource).seed_hex.length = 64
  ∧ (generate_entropy_seed 64 ClientEntropyField.absent [] false id
       (List.replicate 32 0) zeroSource).usedFallback = true
  ∧ (generate_entropy_seed 64 ClientEntropyField.absent [] false id
       (List.replicate 32 0) zeroSource).seed_hex.length = 64
  ∧ (seedHexOf (get_seed ⟨SizeField.given 64, ClientEntropyField.absent, "login"⟩
       ⟨[], false, true⟩ [] false [] [] zeroSource (List.replicate 32 0) zeroSource
       zeroSource id).1).length = 64
  ∧ (64 : ℕ) ≠ 2 * 64 := by
  refine ⟨by decide, by decide, by decide, by decide, by decide⟩

/-- C2: the claim says extraction never invokes a blocking refresh while
holding the single (non-reentrant) pool lock.  In the code,
generate_entropy_seed acquires entropy_lock at line 328 and, whenever
the pool holds fewer than 2*size bytes or is stale, calls
refresh_entropy_pool at line 333 while still holding it;
refresh_entropy_pool immediately re-acquires the same threading.Lock at
line 381, so the request self-deadlocks (here: a depleted pool of 0
bytes with size 32).  When the refresh condition does not hold (pool of
100 bytes, fresh), the call performs a single acquire/release pair and
does not deadlock. -/
theorem C2_extraction_deadlocks_on_refresh :
    deadlocksFrom (generate_entropy_seed_locks 0 32 false 0) 0 = true
  ∧ generate_entropy_seed_locks 100 32 false 0 = [LockOp.acq, LockOp.rel]
  ∧ deadlocksFrom (generate_entropy_seed_locks 100 32 false 0) 0 = false := by
  refine ⟨rfl, rfl, rfl⟩

/-- C3: the claim says the endpoint never returns a hard failure, even
for a malformed size; in the code a malformed size makes int() raise at
line 642 before seed_size is bound, and the except handler then
dereferences the unbound seed_size at line 716, raising
UnboundLocalError, so Flask answers a hard 500 and the pool is left as
it was.  The handler does produce the intended fallback:true response —
but only when seed_size was already bound when the exception occurred,
which never happens for the malformed-size failure it is meant to
cover. -/
theorem C3_malformed_size_hard_failure :
    (get_seed ⟨SizeField.malformed, ClientEntropyField.absent, "general"⟩
        ⟨[1, 2, 3], false, false⟩ [] false [] [] zeroSource (List.replicate 32 0)
        zeroSource zeroSource id).1 = EndpointOutcome.httpError 500
  ∧ (get_seed ⟨SizeField.malformed, ClientEntropyField.absent, "general"⟩
        ⟨[1, 2, 3], false, false⟩ [] false [] [] zeroSource (List.replicate 32 0)
        zeroSource zeroSource id).2 = [1, 2, 3]
  ∧ (respOf (get_seed_error_handler (some 32) "boom".toList zeroSource [] [])).lookup
        "fallback" = some (JVal.b true) := by
  refine ⟨rfl, rfl, rfl⟩

/-- C4 counterexample: a login request while a refresh is in progress is
answered by the fast path, but the response carries no "degraded" key at
all — the special flag the code actually sets is
"prefetchDuringRefresh" — so the claim that the result is flagged
degraded=true is false as stated. -/
theorem C4_counterexample_degraded_flag_missing :
    (respOf (get_seed ⟨SizeField.given 32, ClientEntropyField.absent, "login"⟩
        ⟨[1, 2, 3], false, true⟩ [] false [] [] zeroSource (List.replicate 32 0)
        zeroSource zeroSource id).1).lookup "degraded" = none
  ∧ (respOf (get_seed ⟨SizeField.given 32, ClientEntropyField.absent, "login"⟩
        ⟨[1, 2, 3], false, true⟩ [] false [] [] zeroSource (List.replicate 32 0)
        zeroSource zeroSource id).1).lookup "prefetchDuringRefresh"
      = some (JVal.b true) := by
  refine ⟨rfl, rfl⟩

/-- C4 amended: for every latency-critical request (well-formed,
non-negative size) arriving while a refresh is in progress, the response
is computed entirely from the secure random source — it is identical for
any two pool/staleness states, and the pool is returned unchanged — and
it carries the degraded-mode marker the code actually uses,
"prefetchDuringRefresh": true (the spec calls this flag "degraded"). -/
theorem C4_fast_path_pool_untouched (req : SeedReq) (n : ℤ)
    (hn : parse_seed_size req.sizeField = Except.ok n) (hnn : 0 ≤ n)
    (hcrit : is_critical_path req.purpose = true)
    (p1 p2 : List Byte) (s1 s2 : Bool) (apiKey : List Char) (akv : Bool)
    (ts rid : List Char) (emer : RandomSource) (pad32 : List Byte)
    (fbGen exFb : RandomSource) (rf : List Byte → List Byte) :
    get_seed req ⟨p1, s1, true⟩ apiKey akv ts rid emer pad32 fbGen exFb rf
      = (EndpointOutcome.ok (fast_path_response req.clientEntropy n.toNat emer ts rid), p1)
  ∧ (get_seed req ⟨p1, s1, true⟩ apiKey akv ts rid emer pad32 fbGen exFb rf).1
      = (get_seed req ⟨p2, s2, true⟩ apiKey akv ts rid emer pad32 fbGen exFb rf).1
  ∧ (fast_path_response req.clientEntropy n.toNat emer ts rid).lookup
      "prefetchDuringRefresh" = some (JVal.b true) := by
  have key : ∀ (st : ServerState), st.refreshing = true →
      get_seed req st apiKey akv ts rid emer pad32 fbGen exFb rf
        = (EndpointOutcome.ok (fast_path_response req.clientEntropy n.toNat emer ts rid), st.pool) := by
    intro st hr
    simp only [get_seed, hn, hcrit, hr, Bool.and_self]
    rw [if_pos trivial, if_neg (by omega)]
  exact ⟨key ⟨p1, s1, true⟩ rfl, by rw [key ⟨p1, s1, true⟩ rfl, key ⟨p2, s2, true⟩ rfl], rfl⟩

/-- Witness for C4 at a concrete input: a login request of size 32
against two different pools. -/
theorem C4_fast_path_pool_untouched_witness :
    parse_seed_size (SizeField.given 32) = Except.ok 32
  ∧ (0 : ℤ) ≤ 32
  ∧ is_critical_path "login" = true
  ∧ (get_seed ⟨SizeField.given 32, ClientEntropyField.absent, "login"⟩ ⟨[7], false, true⟩
        [] false [] [] zeroSource (List.replicate 32 0) zeroSource zeroSource id
       = (EndpointOutcome.ok
           (fast_path_response ClientEntropyField.absent ((32 : ℤ)).toNat zeroSource [] []), [7])
     ∧ (get_seed ⟨SizeField.given 32, ClientEntropyField.absent, "login"⟩ ⟨[7], false, true⟩
          [] false [] [] zeroSource (List.replicate 32 0) zeroSource zeroSource id).1
        = (get_seed ⟨SizeField.given 32, ClientEntropyField.absent, "login"⟩ ⟨[8, 9], true, true⟩
          [] false [] [] zeroSource (List.replicate 32 0) zeroSource zeroSource id).1
     ∧ (fast_path_response ClientEntropyField.absent ((32 : ℤ)).toNat zeroSource [] []).lookup
        "prefetchDuringRefresh" = some (JVal.b true)) :=
  ⟨rfl, by decide, rfl,
   C4_fast_path_pool_untouched ⟨SizeField.given 32, ClientEntropyField.absent, "login"⟩ 32
     rfl (by decide) rfl [7] [8, 9] false true [] false [] [] zeroSource
     (List.replicate 32 0) zeroSource zeroSource id⟩

/-- C6: the claim says both paths XOR-fold client entropy with
wraparound over all size bytes of the base bytes.  The standard path
does: for every taken byte list of length n, nonempty client bytes and
index i < n, the mixed byte at i is base[i] XOR client[i mod L].  The
fast path does not: at size 4 with base [5,6,7,8] and client [1,2] the
code produces [5^^^1, 6^^^2, 0, 0] = [4,4,0,0] — the tail beyond the
client length is zeroed (the zero-filled bytearray is never filled past
min(L, size)) instead of the claimed [.., 7^^^1, 8^^^2] = [.., 6, 10]. -/
theorem C6_client_entropy_fold :
    (∀ (seed_bytes client : List Byte) (n i : ℕ),
        seed_bytes.length = n → 0 < client.length → i < n →
        (mixClient seed_bytes (n : ℤ) client).getD i 0
          = (seed_bytes.getD i 0) ^^^ (client.getD (i % client.length) 0))
  ∧ fast_path_mix [5, 6, 7, 8] 4 [1, 2] = [4, 4, 0, 0]
  ∧ (([5, 6, 7, 8] : List Byte).getD 2 0) ^^^ (([1, 2] : List Byte).getD (2 % 2) 0) = 6 := by
  refine ⟨?_, by decide, by decide⟩
  intro seed_bytes client n i hsb hc hi
  have hcne : client ≠ [] := by
    intro hnil
    rw [hnil] at hc
    simp at hc
  rw [mixClient, if_neg (by rintro ⟨_, h2⟩; exact hcne h2)]
  by_cases hlt : (client.length : ℤ) < (n : ℤ)
  · rw [if_pos hlt]
    have hLn : client.length < n := by exact_mod_cast hlt
    have hfd : (((n : ℤ)).fdiv (client.length : ℤ) + 1).toNat = n / client.length + 1 := by
      have hq : ((n : ℤ)).fdiv (client.length : ℤ) = ((n / client.length : ℕ) : ℤ) := by
        rw [Int.fdiv_eq_tdiv (by omega) (by omega)]
        exact (Int.ofNat_tdiv n client.length).symm
      rw [hq]
      generalize n / client.length = q
      omega
    rw [hfd]
    have hmod := Nat.div_add_mod n client.length
    have hm : n % client.length < client.length := Nat.mod_lt n hc
    have hnle : n ≤ (n / client.length + 1) * client.length := by
      have h1 : (n / client.length + 1) * client.length
          = client.length * (n / client.length) + client.length := by ring
      omega
    have hrep : n ≤ (pyRepeat client (n / client.length + 1)).length := by
      rw [pyRepeat_length]
      exact hnle
    simp only [pySliceTo_ofNat]
    rw [zipWith_xor_getD _ _ i (by omega) (by rw [List.length_take]; omega),
      take_getD _ _ _ hi,
      pyRepeat_getD (n / client.length + 1) client i hc (by rw [← pyRepeat_length]; omega)]
  · rw [if_neg hlt]
    have hnL : n ≤ client.length := by exact_mod_cast Int.not_lt.mp hlt
    simp only [pySliceTo_ofNat]
    rw [zipWith_xor_getD _ _ i (by omega) (by rw [List.length_take]; omega),
      take_getD _ _ _ hi,
      Nat.mod_eq_of_lt (by omega)]

/-- Witness for C6 at a concrete input on the standard path: base
[9, 9], client [3], n = 2, i = 1. -/
theorem C6_client_entropy_fold_witness :
    ([9, 9] : List Byte).length = 2 ∧ 0 < ([3] : List Byte).length ∧ 1 < 2
  ∧ (mixClient [9, 9] ((2 : ℕ) : ℤ) [3]).getD 1 0
      = (([9, 9] : List Byte).getD 1 0) ^^^ (([3] : List Byte).getD (1 % ([3] : List Byte).length) 0) :=
  ⟨rfl, by decide, by decide,
   C6_client_entropy_fold.1 [9, 9] [3] 2 1 rfl (by decide) (by decide)⟩

/-- C7: every refresh cycle run by the scheduler — the completed one,
one failing inside refresh_entropy_pool, one whose exception escapes to
the refresh thread wrapper, and one hitting the 75-second join timeout —
leaves the pool at least as large as before (refresh only ever appends),
appends the emergency secure-random block of the respective handler
(10KB, 20KB or 64KB) on the failure outcomes, and always ends with the
in-progress flag cleared. -/
theorem C7_refresh_never_shrinks (st : SchedState) (o : RefreshOutcome)
    (rnd : RandomSource) :
    st.pool.length ≤ (refresh_with_cleanup_step st o rnd).pool.length
  ∧ (refresh_with_cleanup_step st o rnd).inProgress = false
  ∧ (∀ pre : List Byte,
       refresh_with_cleanup_step st (RefreshOutcome.innerError pre) rnd
         = ⟨st.pool ++ pre ++ rnd.1 10240, false⟩)
  ∧ (∀ pre : List Byte,
       refresh_with_cleanup_step st (RefreshOutcome.threadError pre) rnd
         = ⟨st.pool ++ pre ++ rnd.1 20480, false⟩)
  ∧ (∀ pre : List Byte,
       refresh_with_cleanup_step st (RefreshOutcome.timeout pre) rnd
         = ⟨st.pool ++ pre ++ rnd.1 65536, false⟩) := by
  refine ⟨?_, ?_, fun pre => rfl, fun pre => rfl, fun pre => rfl⟩
  · cases o with
    | ok sysE r32 vd extraRand tsB salts =>
        simp only [refresh_with_cleanup_step, refresh_entropy_pool_run]
        have h1 := foldl_append_sha512_length vd (st.pool ++ sha512_model (sysE ++ r32))
        have h2 := fold_to_capacity_length
          ((vd.foldl (fun p v => p ++ sha512_model v) (st.pool ++ sha512_model (sysE ++ r32)))
            ++ sha512_model (sysE ++ (if vd = [] then extraRand else vd.flatten) ++ tsB))
          (sha512_model (sysE ++ (if vd = [] then extraRand else vd.flatten) ++ tsB)) salts 0
        simp only [List.length_append] at h1 h2 ⊢
        omega
    | innerError pre => simp [refresh_with_cleanup_step]
    | threadError pre => simp [refresh_with_cleanup_step]
    | timeout pre => simp [refresh_with_cleanup_step]
  · cases o <;> rfl

/-- C9: for a collector output buffer longer than the 10KB threshold,
the condensed output is the concatenation of the SHA-256 digests of its
consecutive 10KB chunks, of length 32 * ceil(len/10240), which never
exceeds the input length for such buffers; at or below the threshold,
the output is the digest of the whole buffer followed by its first 1024
raw bytes. -/
theorem C9_condense_shape (bs : List Byte) :
    (1024 * 10 < bs.length →
       (process_video_condense bs).length = 32 * ((bs.length + 10239) / 10240)
     ∧ (process_video_condense bs).length ≤ bs.length)
  ∧ (bs.length ≤ 1024 * 10 →
       process_video_condense bs = sha256_model bs ++ bs.take 1024) := by
  constructor
  · intro h
    have hlen : (process_video_condense bs).length = 32 * ((bs.length + 10239) / 10240) := by
      simp only [process_video_condense]
      rw [if_pos h, flatten_length_const]
      · rw [List.length_map, List.length_range]
        congr 1
        split <;> omega
      · intro l hl
        simp only [List.mem_map] at hl
        obtain ⟨i, _, hi⟩ := hl
        rw [← hi, sha256_model_length]
    exact ⟨hlen, by rw [hlen]; omega⟩
  · intro h
    simp only [process_video_condense]
    rw [if_neg (by omega)]

/-- Witness for C9 at concrete inputs: a 10241-byte buffer (above the
threshold) and a 3-byte buffer (below it). -/
theorem C9_condense_shape_witness :
    (1024 * 10 < (List.replicate 10241 (0 : Byte)).length
     ∧ ((process_video_condense (List.replicate 10241 (0 : Byte))).length
          = 32 * (((List.replicate 10241 (0 : Byte)).length + 10239) / 10240)
        ∧ (process_video_condense (List.replicate 10241 (0 : Byte))).length
          ≤ (List.replicate 10241 (0 : Byte)).length))
  ∧ (([1, 2, 3] : List Byte).length ≤ 1024 * 10
     ∧ process_video_condense [1, 2, 3]
         = sha256_model [1, 2, 3] ++ ([1, 2, 3] : List Byte).take 1024) :=
  ⟨⟨by norm_num, (C9_condense_shape (List.replicate 10241 0)).1 (by norm_num)⟩,
   ⟨by norm_num, (C9_condense_shape [1, 2, 3]).2 (by norm_num)⟩⟩

end EntropyServer
